import Mathlib

/-!
Verification of the core logic of the orsa-admin dashboard: the session
manager (`src/src/contexts/auth-context.tsx`), the client-side password
checks of the two password forms (`new-password-form.tsx`,
`reset-password-form.tsx`), and the create-product-with-images workflow
(`onSubmitAddProduct` in the products page).

The TypeScript source is shallowly embedded: React state updates become
explicit state passing, `async` calls to the identity provider and the REST
backend become oracle parameters recording which calls were issued, and
JavaScript dynamic values (the decoded JWT payload) become an explicit
`Json` type with JavaScript truthiness.
-/

namespace OrsaAdmin

/-! ## JavaScript value model

`extractGroupsFromToken` applies `JSON.parse` to an `atob`-decoded string and
reads `payload["cognito:groups"] || []`.  The payload is an arbitrary
JavaScript/JSON value, so we model JSON values, JS truthiness, and JS member
access (which throws a TypeError on a `null` base). -/

inductive Json where
  | null
  | bool (b : Bool)
  | num (n : Int)
  | str (s : String)
  | arr (elems : List Json)
  | obj (fields : List (String × Json))
deriving Repr

/-- JavaScript truthiness of a JSON value (`NaN` cannot arise from
`JSON.parse` of finite literals and is not modelled). -/
def Json.truthy : Json → Bool
  | .null => false
  | .bool b => b
  | .num n => n != 0
  | .str s => s != ""
  | .arr _ => true
  | .obj _ => true

/-- Result of a JavaScript member access `base[k]`: either a thrown
TypeError (base is `null`/`undefined`) or a value (`none` = `undefined`). -/
inductive JsAccess where
  | thrown
  | value (v : Option Json)

/-- JavaScript member access `base["k"]` on a parsed JSON value.  Accessing a
member of `null` throws; objects look the key up; every other base yields
`undefined` (string/number/array prototype members are irrelevant for the
key `"cognito:groups"`). -/
def jsIndex : Json → String → JsAccess
  | .null, _ => .thrown
  | .obj fields, k => .value ((fields.find? (fun kv => kv.1 == k)).map (·.2))
  | _, _ => .value none

/-- The browser primitives used by `extractGroupsFromToken`, modelled as
oracles: `none` means the call threw (`atob` on invalid base64,
`JSON.parse` on invalid JSON). -/
structure JsPrims where
  atob : String → Option String
  jsonParse : String → Option Json

/-- Split a character list at every occurrence of `c`, keeping empty
segments, as JavaScript `String.prototype.split` does. -/
def splitOnChar (c : Char) : List Char → List (List Char)
  | [] => [[]]
  | x :: xs =>
    match splitOnChar c xs with
    | [] => [[]]
    | y :: ys => if x = c then [] :: y :: ys else (x :: y) :: ys

/-- JavaScript `token.split(".")`: the list of dot-separated segments of
the string (always at least one segment; `"".split(".")` is `[""]`). -/
def jsSplitDot (s : String) : List String :=
  (splitOnChar '.' s.data).map String.mk

/-- From `src/src/contexts/auth-context.tsx` lines 52-59:

`try { const payload = JSON.parse(atob(token.split(".")[1]));
return payload["cognito:groups"] || []; } catch { return []; }`

`token.split(".")[1]` is `undefined` when the token has no dot; then
`atob(undefined)` coerces to `atob("undefined")`, which throws
(length 9 is not a valid base64 length), landing in the catch.  A falsy
claim value (`undefined`, `null`, `0`, `""`, `false`) yields `[]` through
`|| []`; a truthy claim value is returned as-is, whatever its type. -/
def extractGroupsFromToken (P : JsPrims) (token : String) : Json :=
  match (jsSplitDot token).get? 1 with
  | none => Json.arr []
  | some part =>
    match P.atob part with
    | none => Json.arr []
    | some decoded =>
      match P.jsonParse decoded with
      | none => Json.arr []
      | some payload =>
        match jsIndex payload "cognito:groups" with
        | .thrown => Json.arr []
        | .value v =>
          let v := v.getD Json.null
          if v.truthy then v else Json.arr []

/-! ## Client-side password checks

From `src/src/components/new-password-form.tsx` (`handleSubmit`, lines
35-64) and `src/src/components/reset-password-form.tsx` (`handleSubmit`,
lines 44-81).  Each returns `some errorMessage` when the submit handler
stops locally (`setError(...); return;`) and `none` when it proceeds to the
identity-provider call (`completeNewPassword` / `resetPasswordConfirm`). -/

def newPasswordClientCheck (newPassword confirmPassword : String) : Option String :=
  if newPassword != confirmPassword then some "Passwords do not match"
  else if newPassword.length < 8 then
    some "Password must be at least 8 characters long"
  else none

def resetPasswordClientCheck (email code newPassword confirmPassword : String) :
    Option String :=
  if email = "" then
    some "Email address is required. Please go back to the forgot password page."
  else if code = "" then some "Verification code is required"
  else if newPassword != confirmPassword then some "Passwords do not match"
  else if newPassword.length < 8 then
    some "Password must be at least 8 characters long"
  else none

/-- The password policy as stated by the spec (and by the repository's own
`FORGOT_PASSWORD.md` and the new-password form's description text):
minimum length 8, at least one uppercase letter, one lowercase letter, one
digit, one special (non-alphanumeric) character.  Modelled from the spec's
words, for comparison with the checks the code actually performs. -/
def specPasswordPolicy (p : String) : Bool :=
  decide (8 ≤ p.length) && p.data.any Char.isUpper && p.data.any Char.isLower &&
    p.data.any Char.isDigit && p.data.any (fun c => !c.isAlphanum)

/-! ## Resource Mutation Coordinator

From `onSubmitAddProduct` and its helpers (`uploadImageToS3`,
`saveImageRecord`, `deleteProduct`, `deleteProductImages`) in the products
page source (`src/unnamed/part_004`, lines 453-602).  The REST backend is an
oracle (`Backend`); the workflow additionally returns the ordered list of
API calls it issued, so that frame properties ("no further uploads", "no
metadata writes", "no deletes") are visible in the trace.

The `isLoading` reentrancy guard, toast/progress messages and the form
reset on success are UI concerns outside the embedded logic; the zod
`imageRecordSchema.parse` that `saveImageRecord` runs before its POST is
embedded (`imageRecordValid`), with the `z.string().url()` grammar as an
oracle (`Backend.urlValid`), since a throwing parse aborts the save loop
without issuing the POST. -/

/-- The fields of the upload response that `saveImageRecord` reads
(`imageData.image.url`, `imageData.image.key`). -/
structure ImageUploadResponse where
  url : String
  key : String
deriving Repr, DecidableEq

/-- The request body built by `saveImageRecord`. -/
structure ImageRecord where
  product_id : Nat
  image_url : String
  image_key : String
  display_order : Nat
  is_primary : Bool
deriving Repr, DecidableEq

/-- One HTTP request issued by the workflow, in issue order. -/
inductive ApiCall where
  | createProduct
  | uploadImage (idx : Nat)
  | saveRecord (record : ImageRecord)
  | deleteProduct (id : Nat)
  | deleteProductImages (id : Nat)
deriving Repr, DecidableEq

/-- The REST backend and the client-side URL validator, as oracles.
`none`/`false` means the corresponding call fails (rejects / throws).
`deleteProductImages` returns whether the DELETE succeeded, but
`deleteProductImages` in the source swallows its own errors, so the result
never influences the workflow. -/
structure Backend where
  createProduct : Option Nat
  uploadImage : Nat → Option ImageUploadResponse
  saveRecord : ImageRecord → Bool
  deleteProduct : Nat → Bool
  deleteProductImages : Nat → Bool
  urlValid : String → Bool

/-- The record `saveImageRecord` builds for upload `r` at index `i`:
`display_order = i + 1`, `is_primary = (i === primaryImageIndex)`. -/
def mkImageRecord (productId primaryIdx i : Nat) (r : ImageUploadResponse) :
    ImageRecord :=
  { product_id := productId, image_url := r.url, image_key := r.key,
    display_order := i + 1, is_primary := i == primaryIdx }

/-- The zod `imageRecordSchema`: `product_id` positive int, `image_url` a
URL, `image_key` nonempty, `display_order` positive int, `is_primary`
boolean. -/
def imageRecordValid (b : Backend) (r : ImageRecord) : Bool :=
  decide (0 < r.product_id) && b.urlValid r.image_url &&
    decide (1 ≤ r.image_key.length) && decide (0 < r.display_order)

/-- Step 2 of `onSubmitAddProduct`: upload the images at the given indices
strictly in order; the first failing upload rethrows, aborting the loop.
Returns (successful upload responses, calls issued, loop completed?). -/
def uploadList (b : Backend) :
    List Nat → List ImageUploadResponse × List ApiCall × Bool
  | [] => ([], [], true)
  | i :: rest =>
    match b.uploadImage i with
    | none => ([], [ApiCall.uploadImage i], false)
    | some r =>
      let t := uploadList b rest
      (r :: t.1, ApiCall.uploadImage i :: t.2.1, t.2.2)

/-- Step 3 of `onSubmitAddProduct`: persist a metadata record per uploaded
image, strictly in order over the enumerated upload list; a zod validation
failure throws before the POST, a rejected POST throws after it; either
aborts the loop.  Returns (calls issued, loop completed?). -/
def saveList (b : Backend) (productId primaryIdx : Nat) :
    List (Nat × ImageUploadResponse) → List ApiCall × Bool
  | [] => ([], true)
  | (i, r) :: rest =>
    let record := mkImageRecord productId primaryIdx i r
    if imageRecordValid b record then
      if b.saveRecord record then
        let t := saveList b productId primaryIdx rest
        (ApiCall.saveRecord record :: t.1, t.2)
      else ([ApiCall.saveRecord record], false)
    else ([], false)

/-- The rollback block of the catch handler.  `if (createdProductId)` is
JavaScript truthiness: both `null` and `0` skip the block, leaving
`rollbackSuccessful = false`.  Otherwise `deleteProduct` runs first and
rethrows on failure (skipping the image delete); `deleteProductImages`
swallows its own errors, so once `deleteProduct` succeeds the rollback is
reported successful regardless of the image delete's result.
Returns (calls issued, rollbackSuccessful). -/
def rollback (b : Backend) : Option Nat → List ApiCall × Bool
  | none => ([], false)
  | some id =>
    if id = 0 then ([], false)
    else if b.deleteProduct id then
      ([ApiCall.deleteProduct id, ApiCall.deleteProductImages id], true)
    else ([ApiCall.deleteProduct id], false)

/-- What `onSubmitAddProduct` tells its caller. -/
inductive SubmitOutcome where
  | noImagesSelected
  | success (productId : Nat)
  | failureRolledBack
  | failureManualCleanup (createdProductId : Option Nat)
deriving Repr, DecidableEq

/-- The toast chosen by the catch handler: "all changes have been rolled
back" when `rollbackSuccessful`, else the manual-cleanup warning
interpolating `createdProductId` (which prints as `null` when step 1
itself failed). -/
def failureOutcome (createdProductId : Option Nat) (rollbackSuccessful : Bool) :
    SubmitOutcome :=
  if rollbackSuccessful then .failureRolledBack
  else .failureManualCleanup createdProductId

/-- `onSubmitAddProduct` (lines 510-602) over `numImages` selected images
with designated primary index `primaryIdx`: create the product, upload each
image in order, persist each metadata record in order, and on any failure
roll back via the catch handler.  Returns the caller-visible outcome and
the ordered trace of API calls issued. -/
def onSubmitAddProduct (b : Backend) (numImages primaryIdx : Nat) :
    SubmitOutcome × List ApiCall :=
  if numImages = 0 then (.noImagesSelected, [])
  else
    match b.createProduct with
    | none =>
      let rb := rollback b none
      (failureOutcome none rb.2, ApiCall.createProduct :: rb.1)
    | some pid =>
      let up := uploadList b (List.range numImages)
      if up.2.2 then
        let sv := saveList b pid primaryIdx ((List.range up.1.length).zip up.1)
        if sv.2 then
          (.success pid, ApiCall.createProduct :: (up.2.1 ++ sv.1))
        else
          let rb := rollback b (some pid)
          (failureOutcome (some pid) rb.2,
           ApiCall.createProduct :: (up.2.1 ++ sv.1 ++ rb.1))
      else
        let rb := rollback b (some pid)
        (failureOutcome (some pid) rb.2,
         ApiCall.createProduct :: (up.2.1 ++ rb.1))

/-! ## Session Manager

From `src/src/contexts/auth-context.tsx`.  The React state of
`AuthProvider` (`user`, `isLoading`, `needsPasswordChange`,
`challengeSession`, `sessionTimer`) becomes `AuthState`; the identity
provider (AWS Cognito through Amplify) becomes `ProviderState` plus
operation-outcome parameters.  `sessionTimers` is the list of currently
pending `setTimeout` expiry timestamps — the source keeps a single slot and
`clearTimeout`s the previous timer when arming, so arming is modelled as
replacing the whole list. -/

structure User where
  username : String
  email : String
  groups : Json

structure AuthState where
  user : Option User
  isLoading : Bool
  needsPasswordChange : Bool
  challengeSession : Bool
  sessionTimers : List Nat

structure ProviderState where
  signedIn : Bool
  username : String
  loginId : String
  accessToken : Option String
  pendingChallenge : Bool

structure World where
  app : AuthState
  provider : ProviderState

/-- What the provider's `signIn` reports for one login attempt:
the mandatory new-password challenge, a completed sign-in (the provider now
holds `tok`), a sign-in that neither completed nor challenged, or a
rejection (thrown error carrying the provider's message). -/
inductive SignInOutcome where
  | challengeRequired
  | succeeded (tok : String)
  | incomplete
  | rejected (msg : String)

/-- The provider's side of `signIn`.  A challenge-required response issues
no tokens (the principal is not signed in until the challenge is
confirmed); a completed sign-in installs the token; a rejection changes
nothing. -/
def providerSignIn (o : SignInOutcome) (p : ProviderState) : ProviderState :=
  match o with
  | .challengeRequired => { p with pendingChallenge := true }
  | .succeeded tok =>
    { p with signedIn := true, accessToken := some tok, pendingChallenge := false }
  | .incomplete => p
  | .rejected _ => p

/-- `getAuthToken` (lines 192-199): `fetchAuthSession` and return
`session.tokens?.accessToken?.toString() || null`, with any throw caught
into `null`.  `|| null` collapses the empty string to `null`. -/
def getAuthToken (p : ProviderState) : Option String :=
  match p.accessToken with
  | none => none
  | some t => if t = "" then none else some t

/-- `checkAuthState` (lines 91-114): `getCurrentUser` (throws when no
principal is signed in) then `fetchAuthSession`; on success store the user
with groups decoded from the access token (`?.toString() || ""`) and arm
the session timer; on throw clear the user and the timer; finally
`setIsLoading(false)`.  `startSessionTimer` (lines 61-79) clears any
pending timer and arms one for `now + 3600000` ms. -/
def checkAuthState (P : JsPrims) (now : Nat) (w : World) : World :=
  if w.provider.signedIn then
    let tokenStr := (w.provider.accessToken.getD "")
    { w with app :=
      { w.app with
        user := some
          { username := w.provider.username, email := w.provider.loginId,
            groups := extractGroupsFromToken P tokenStr },
        sessionTimers := [now + 3600000],
        isLoading := false } }
  else
    { w with app :=
      { w.app with user := none, sessionTimers := [], isLoading := false } }

/-- `login` (lines 127-153): `setIsLoading(true)`; `signIn`; on a
new-password challenge park it (`needsPasswordChange`, `challengeSession`)
and return without authenticating; on a completed sign-in re-run
`checkAuthState`; on a throw `setIsLoading(false)` and rethrow the
provider's message.  Returns the final world and the thrown message, if
any. -/
def login (P : JsPrims) (o : SignInOutcome) (now : Nat) (w : World) :
    World × Option String :=
  let app1 := { w.app with isLoading := true }
  let p1 := providerSignIn o w.provider
  match o with
  | .challengeRequired =>
    let app2 := { app1 with
      needsPasswordChange := true, challengeSession := true,
      isLoading := false }
    (⟨app2, p1⟩, none)
  | .succeeded _ => (checkAuthState P now ⟨app1, p1⟩, none)
  | .incomplete => (⟨app1, p1⟩, none)
  | .rejected msg => (⟨{ app1 with isLoading := false }, p1⟩, some msg)

/-- `logout` (lines 154-164): clear the session timer, `signOut()`, then
clear user, password-change flag and challenge; when `signOut` throws, the
catch clears the timer again and nothing else.  The function itself never
throws. -/
def logout (signOutOk : Bool) (w : World) : World :=
  if signOutOk then
    let app1 := { w.app with
      sessionTimers := ([] : List Nat), user := none,
      needsPasswordChange := false, challengeSession := false }
    let p1 := { w.provider with
      signedIn := false, accessToken := (none : Option String),
      pendingChallenge := false }
    ⟨app1, p1⟩
  else
    ⟨{ w.app with sessionTimers := [] }, w.provider⟩

/-- What the provider's `confirmSignIn` reports. -/
inductive ConfirmOutcome where
  | signedIn (tok : String)
  | notSignedIn
  | rejected (msg : String)

/-- `completeNewPassword` (lines 165-190): with no stored challenge it
throws "No active challenge session" before any provider call; otherwise
`confirmSignIn` runs, and on `isSignedIn` the challenge is discarded and
`checkAuthState` re-runs; a not-signed-in result or a provider rejection
rethrows its message.  Returns (final world, provider called?, thrown
message). -/
def completeNewPassword (P : JsPrims) (o : ConfirmOutcome) (now : Nat)
    (w : World) : World × Bool × Option String :=
  if w.app.challengeSession = false then
    (w, false, some "No active challenge session")
  else
    match o with
    | .signedIn tok =>
      let p1 := { w.provider with
        signedIn := true, accessToken := some tok,
        pendingChallenge := false }
      let app1 := { w.app with
        needsPasswordChange := false, challengeSession := false }
      (checkAuthState P now ⟨app1, p1⟩, true, none)
    | .notSignedIn =>
      (w, true, some "Sign-in was not completed after password change")
    | .rejected msg => (w, true, some msg)

/-- The `setTimeout` callback armed by `startSessionTimer` (lines 69-75):
`signOut()`, clear user, password-change flag and challenge, and alert the
session-expiry notice.  The fired timer is spent. -/
def fireSessionTimer (t : Nat) (w : World) : World :=
  let app1 := { w.app with
    user := (none : Option User), needsPasswordChange := false,
    challengeSession := false,
    sessionTimers := w.app.sessionTimers.filter (fun x => x ≠ t) }
  let p1 := { w.provider with
    signedIn := false, accessToken := (none : Option String),
    pendingChallenge := false }
  ⟨app1, p1⟩

/-- The events that can touch the session state.  `apiCallEv` is a REST
request through `src/src/lib/api-client.ts`: it reads the token via
`fetchAuthSession` and mutates nothing.  `getTokenEv` is a `getAuthToken`
call, also a pure read.  `timerFireEv t` fires the pending timer `t`; a
timer that is no longer pending (cancelled by `clearTimeout`) cannot
fire. -/
inductive AuthEvent where
  | loginEv (o : SignInOutcome) (now : Nat)
  | logoutEv (signOutOk : Bool)
  | completeEv (o : ConfirmOutcome) (now : Nat)
  | apiCallEv
  | getTokenEv
  | timerFireEv (t : Nat)

def stepEvent (P : JsPrims) (w : World) : AuthEvent → World
  | .loginEv o now => (login P o now w).1
  | .logoutEv ok => logout ok w
  | .completeEv o now => (completeNewPassword P o now w).1
  | .apiCallEv => w
  | .getTokenEv => w
  | .timerFireEv t =>
    if t ∈ w.app.sessionTimers then fireSessionTimer t w else w

/-! ## Concrete fixtures for witnesses and counterexamples -/

/-- Browser primitives that always throw; the claims about the session
state machine never reach them. -/
def jsPrimsNone : JsPrims :=
  { atob := fun _ => none, jsonParse := fun _ => none }

/-- Browser primitives behaving as the real `atob`/`JSON.parse` do on the
payload `\x7b"cognito:groups":5\x7d`, whose base64 encoding is
`eyJjb2duaXRvOmdyb3VwcyI6NX0=`. -/
def jsPrimsGroupsNum : JsPrims :=
  { atob := fun s =>
      if s = "eyJjb2duaXRvOmdyb3VwcyI6NX0=" then
        some "\x7b\"cognito:groups\":5\x7d"
      else none,
    jsonParse := fun s =>
      if s = "\x7b\"cognito:groups\":5\x7d" then
        some (Json.obj [("cognito:groups", Json.num 5)])
      else none }

/-- A stored-object reference returned by the upload endpoint. -/
def imgA : ImageUploadResponse :=
  { url := "https://example.com/a.jpg", key := "products/a.jpg" }

/-- Backend that assigns product id 0 and fails every upload: exercises the
JavaScript-truthiness hole in the rollback guard. -/
def backendIdZero : Backend :=
  { createProduct := some 0, uploadImage := fun _ => none,
    saveRecord := fun _ => true, deleteProduct := fun _ => true,
    deleteProductImages := fun _ => true, urlValid := fun _ => true }

/-- Backend where product creation succeeds with id 42, uploads 0 and 1
succeed, upload 2 fails, and deletes succeed. -/
def backendFailAt2 : Backend :=
  { createProduct := some 42,
    uploadImage := fun i => if i < 2 then some imgA else none,
    saveRecord := fun _ => true, deleteProduct := fun _ => true,
    deleteProductImages := fun _ => true, urlValid := fun _ => true }

/-- Backend where product creation itself fails. -/
def backendCreateFails : Backend :=
  { createProduct := none, uploadImage := fun _ => some imgA,
    saveRecord := fun _ => true, deleteProduct := fun _ => true,
    deleteProductImages := fun _ => true, urlValid := fun _ => true }

/-- Backend where every step succeeds, with product id 42. -/
def backendAllOk : Backend :=
  { createProduct := some 42, uploadImage := fun _ => some imgA,
    saveRecord := fun _ => true, deleteProduct := fun _ => true,
    deleteProductImages := fun _ => true, urlValid := fun _ => true }

/-- A fully anonymous world: no user, no challenge, no timer, provider
signed out with no token. -/
def worldAnon : World :=
  { app := { user := none, isLoading := false, needsPasswordChange := false,
             challengeSession := false, sessionTimers := [] },
    provider := { signedIn := false, username := "", loginId := "",
                  accessToken := none, pendingChallenge := false } }

/-- An authenticated world: a signed-in user with a live token, a pending
challenge flag left set, and a pending expiry timer. -/
def worldAuthed : World :=
  { app := { user := some { username := "admin", email := "admin@example.com",
                            groups := Json.arr [Json.str "admins"] },
             isLoading := false, needsPasswordChange := false,
             challengeSession := true, sessionTimers := [5] },
    provider := { signedIn := true, username := "admin",
                  loginId := "admin@example.com",
                  accessToken := some "tok", pendingChallenge := false } }

/-- Projection of the save-record calls out of an API-call trace. -/
def getSaveRecord : ApiCall → Option ImageRecord
  | .saveRecord r => some r
  | _ => none

/-! ## Helper lemmas -/

theorem uploadList_all_some (b : Backend) (f : Nat → ImageUploadResponse) :
    ∀ idxs : List Nat, (∀ i ∈ idxs, b.uploadImage i = some (f i)) →
      uploadList b idxs = (idxs.map f, idxs.map ApiCall.uploadImage, true)
  | [], _ => rfl
  | i :: rest, h => by
    have hi := h i (List.mem_cons_self i rest)
    have ih := uploadList_all_some b f rest
      (fun j hj => h j (List.mem_cons_of_mem i hj))
    simp [uploadList, hi, ih]

theorem uploadList_first_fail (b : Backend) (i : Nat)
    (hfail : b.uploadImage i = none) :
    ∀ pre post : List Nat, (∀ j ∈ pre, (b.uploadImage j).isSome = true) →
      (uploadList b (pre ++ i :: post)).2.1
          = pre.map ApiCall.uploadImage ++ [ApiCall.uploadImage i] ∧
        (uploadList b (pre ++ i :: post)).2.2 = false
  | [], post, _ => by simp [uploadList, hfail]
  | j :: pre, post, h => by
    have hj := h j (List.mem_cons_self j pre)
    obtain ⟨r, hr⟩ := Option.isSome_iff_exists.mp hj
    have ih := uploadList_first_fail b i hfail pre post
      (fun k hk => h k (List.mem_cons_of_mem j hk))
    simp [uploadList, hr, ih.1, ih.2]

theorem saveList_all_ok (b : Backend) (pid p : Nat) :
    ∀ pairs : List (Nat × ImageUploadResponse),
      (∀ x ∈ pairs, imageRecordValid b (mkImageRecord pid p x.1 x.2) = true) →
      (∀ x ∈ pairs, b.saveRecord (mkImageRecord pid p x.1 x.2) = true) →
      saveList b pid p pairs
        = (pairs.map (fun x => ApiCall.saveRecord (mkImageRecord pid p x.1 x.2)),
           true)
  | [], _, _ => rfl
  | ⟨i, r⟩ :: rest, hv, hs => by
    have hv1 := hv ⟨i, r⟩ (List.mem_cons_self _ rest)
    have hs1 := hs ⟨i, r⟩ (List.mem_cons_self _ rest)
    have ih := saveList_all_ok b pid p rest
      (fun y hy => hv y (List.mem_cons_of_mem _ hy))
      (fun y hy => hs y (List.mem_cons_of_mem _ hy))
    simp [saveList, hv1, hs1, ih]

theorem zip_self_map (f : Nat → ImageUploadResponse) :
    ∀ l : List Nat, l.zip (l.map f) = l.map (fun i => (i, f i))
  | [] => rfl
  | i :: rest => by simp [zip_self_map f rest]

theorem range_decomp {i n : Nat} (h : i < n) :
    ∃ post, List.range n = List.range i ++ i :: post := by
  obtain ⟨k, hk⟩ : ∃ k, n = i + (k + 1) := ⟨n - i - 1, by omega⟩
  subst hk
  refine ⟨(List.range k).map (fun j => i + 1 + j), ?_⟩
  rw [List.range_add, List.range_succ_eq_map]
  simp only [List.map_cons, Nat.add_zero, List.map_map]
  refine congrArg (fun t => List.range i ++ i :: t) ?_
  refine List.map_congr_left (fun j _ => ?_)
  simp only [Function.comp_apply, Nat.succ_eq_add_one]
  omega

theorem countP_range_beq (p : Nat) : ∀ n : Nat,
    (List.range n).countP (fun i => i == p) = if p < n then 1 else 0
  | 0 => rfl
  | n+1 => by
    rw [List.range_succ, List.countP_append, countP_range_beq p n]
    simp only [List.countP_cons, List.countP_nil]
    by_cases h : n = p <;> split_ifs <;> simp_all <;> omega

theorem filterMap_getSaveRecord_uploads :
    ∀ l : List Nat, l.filterMap (getSaveRecord ∘ ApiCall.uploadImage) = []
  | [] => rfl
  | _ :: rest => by
    simp [getSaveRecord, filterMap_getSaveRecord_uploads rest]

theorem filterMap_getSaveRecord_saves (g : Nat → ImageRecord) :
    ∀ l : List Nat,
      l.filterMap (getSaveRecord ∘ fun i => ApiCall.saveRecord (g i)) = l.map g
  | [] => rfl
  | _ :: rest => by
    simp [getSaveRecord, filterMap_getSaveRecord_saves g rest]

/-! ## Claim theorems -/

/-- Claim C2 (code bug evaluation): the client-side checks at both password
entry points accept a length-12 password with no special character
(`"Abcdefghijk1"`) and a length-12 password with no digit
(`"Abcdefghij!!"`), returning `none` — i.e. the submit handlers proceed to
the identity-provider call — although the spec's policy (matching the
repository's own `FORGOT_PASSWORD.md` and the form's description text)
rejects both.  The handlers check only confirmation match and minimum
length 8. -/
theorem passwordPolicy_not_enforced_clientside :
    newPasswordClientCheck "Abcdefghijk1" "Abcdefghijk1" = none ∧
    newPasswordClientCheck "Abcdefghij!!" "Abcdefghij!!" = none ∧
    resetPasswordClientCheck "user@example.com" "123456"
      "Abcdefghijk1" "Abcdefghijk1" = none ∧
    resetPasswordClientCheck "user@example.com" "123456"
      "Abcdefghij!!" "Abcdefghij!!" = none ∧
    specPasswordPolicy "Abcdefghijk1" = false ∧
    specPasswordPolicy "Abcdefghij!!" = false := by
  decide

/-- Claim C3: when step 1 (creating the primary product record) fails, the
workflow issues exactly one API call — the failed create — so no image
uploads, no metadata writes and no deletes are attempted.  (The caller sees
the manual-cleanup warning branch because `rollbackSuccessful` stays
`false`, with `createdProductId` still `null`.) -/
theorem createFailure_no_cleanup (b : Backend) (n p : Nat)
    (hn : n ≠ 0) (hc : b.createProduct = none) :
    onSubmitAddProduct b n p
      = (SubmitOutcome.failureManualCleanup none, [ApiCall.createProduct]) := by
  simp [onSubmitAddProduct, hn, hc, rollback, failureOutcome]

/-- Witness for `createFailure_no_cleanup` at a concrete backend. -/
theorem createFailure_no_cleanup_witness :
    onSubmitAddProduct backendCreateFails 3 0
      = (SubmitOutcome.failureManualCleanup none, [ApiCall.createProduct]) :=
  createFailure_no_cleanup backendCreateFails 3 0 (by decide) rfl

/-- Claim C1, counterexample: the claim fails when the backend assigns the
primary product id 0.  With `backendIdZero` (creation succeeds with id 0,
upload 0 of 1 fails, deletes would succeed), the workflow issues no delete
at all — the rollback guard `if (createdProductId)` is JavaScript
truthiness and 0 is falsy — yet the claim requires the rollback to delete
the primary product.  The caller only gets the manual-cleanup warning
naming id 0. -/
theorem uploadFailure_rollback_skipped_for_id_zero :
    onSubmitAddProduct backendIdZero 1 0
      = (SubmitOutcome.failureManualCleanup (some 0),
         [ApiCall.createProduct, ApiCall.uploadImage 0]) ∧
    ApiCall.deleteProduct 0 ∉ (onSubmitAddProduct backendIdZero 1 0).2 := by
  exact ⟨rfl, by decide⟩

/-- Claim C1 as amended (adds: provided the created primary id is nonzero):
after the primary creation succeeds with id `pid ≠ 0` and the upload at
index `i` fails (indices below `i` having succeeded), the full call trace
is the create, the uploads `0..i` and the rollback — so uploads `i+1..n-1`
are never attempted and no metadata record is ever written — and the
rollback issues the primary delete first and the dependent-images delete
after it, the latter only when the primary delete succeeded (its own
result is ignored: best-effort).  The caller gets the rolled-back failure
toast when the primary delete succeeded, and otherwise the warning naming
`pid` as possibly still existing. -/
theorem uploadFailure_rollback_amended (b : Backend) (n p pid i : Nat)
    (hc : b.createProduct = some pid) (hpid : pid ≠ 0) (hi : i < n)
    (hpre : ∀ j, j < i → (b.uploadImage j).isSome = true)
    (hfail : b.uploadImage i = none) :
    onSubmitAddProduct b n p
      = (if b.deleteProduct pid then SubmitOutcome.failureRolledBack
         else SubmitOutcome.failureManualCleanup (some pid),
         ApiCall.createProduct ::
           ((List.range i).map ApiCall.uploadImage ++ [ApiCall.uploadImage i] ++
            (if b.deleteProduct pid
             then [ApiCall.deleteProduct pid, ApiCall.deleteProductImages pid]
             else [ApiCall.deleteProduct pid]))) := by
  have hn : ¬ n = 0 := by omega
  obtain ⟨post, hrange⟩ := range_decomp hi
  have hup := uploadList_first_fail b i hfail (List.range i) post
    (fun j hj => hpre j (List.mem_range.mp hj))
  rw [← hrange] at hup
  by_cases hd : b.deleteProduct pid <;>
    simp [onSubmitAddProduct, hn, hc, hup.1, hup.2, rollback, hpid,
      failureOutcome, hd]

/-- Witness for `uploadFailure_rollback_amended`: product id 42, three
images, primary index 1, upload 2 fails, primary delete succeeds. -/
theorem uploadFailure_rollback_amended_witness :
    onSubmitAddProduct backendFailAt2 3 1
      = (SubmitOutcome.failureRolledBack,
         [ApiCall.createProduct, ApiCall.uploadImage 0, ApiCall.uploadImage 1,
          ApiCall.uploadImage 2, ApiCall.deleteProduct 42,
          ApiCall.deleteProductImages 42]) := by
  have h := uploadFailure_rollback_amended backendFailAt2 3 1 42 2 rfl
    (by decide) (by decide) (fun j hj => by simp [backendFailAt2, hj]) rfl
  rw [h]
  rfl

/-- Claim C4: on the success path with `n` images and primary index
`p < n`, the persisted metadata records — read off the call trace in issue
order — are exactly the records for images `0..n-1` in index order, record
`i` carrying `display_order = i + 1` and `is_primary = (i == p)`
(`mkImageRecord`), and exactly one record is marked primary. -/
theorem successPath_metadata_records (b : Backend)
    (f : Nat → ImageUploadResponse) (n p pid : Nat) (hp : p < n)
    (hc : b.createProduct = some pid) (hpid : 0 < pid)
    (hup : ∀ j, j < n → b.uploadImage j = some (f j))
    (hurl : ∀ j, j < n → b.urlValid (f j).url = true)
    (hkey : ∀ j, j < n → 1 ≤ (f j).key.length)
    (hsave : ∀ r, b.saveRecord r = true) :
    (onSubmitAddProduct b n p).1 = SubmitOutcome.success pid ∧
    (onSubmitAddProduct b n p).2.filterMap getSaveRecord
      = (List.range n).map (fun i => mkImageRecord pid p i (f i)) ∧
    ((onSubmitAddProduct b n p).2.filterMap getSaveRecord).countP
      (fun r => r.is_primary) = 1 := by
  have hn : ¬ n = 0 := by omega
  have hupl := uploadList_all_some b f (List.range n)
    (fun j hj => hup j (List.mem_range.mp hj))
  have hsv := saveList_all_ok b pid p ((List.range n).map (fun i => (i, f i)))
    (by
      intro x hx
      obtain ⟨j, hj, rfl⟩ := List.mem_map.mp hx
      have hj' := List.mem_range.mp hj
      simp [imageRecordValid, mkImageRecord, hpid, hurl j hj', hkey j hj'])
    (fun x _ => hsave _)
  have hrun : onSubmitAddProduct b n p
      = (SubmitOutcome.success pid,
         ApiCall.createProduct ::
           ((List.range n).map ApiCall.uploadImage ++
            (List.range n).map
              (fun i => ApiCall.saveRecord (mkImageRecord pid p i (f i))))) := by
    simp [onSubmitAddProduct, hn, hc, hupl, zip_self_map f (List.range n),
      hsv, List.map_map, Function.comp]
  have hrecs : (onSubmitAddProduct b n p).2.filterMap getSaveRecord
      = (List.range n).map (fun i => mkImageRecord pid p i (f i)) := by
    rw [hrun]
    simp [getSaveRecord, filterMap_getSaveRecord_uploads,
      filterMap_getSaveRecord_saves]
  refine ⟨by rw [hrun], hrecs, ?_⟩
  rw [hrecs, List.countP_map]
  have hcomp : ((fun r => r.is_primary) ∘ fun i => mkImageRecord pid p i (f i))
      = fun i => i == p := rfl
  rw [hcomp, countP_range_beq, if_pos hp]

/-- Witness for `successPath_metadata_records`: three images, all steps
succeed, product id 42, primary index 1. -/
theorem successPath_metadata_records_witness :
    (onSubmitAddProduct backendAllOk 3 1).1 = SubmitOutcome.success 42 ∧
    (onSubmitAddProduct backendAllOk 3 1).2.filterMap getSaveRecord
      = (List.range 3).map (fun i => mkImageRecord 42 1 i imgA) ∧
    ((onSubmitAddProduct backendAllOk 3 1).2.filterMap getSaveRecord).countP
      (fun r => r.is_primary) = 1 :=
  successPath_metadata_records backendAllOk (fun _ => imgA) 3 1 42
    (by decide) rfl (by decide)
    (by intro j hj; rfl) (by intro j hj; rfl)
    (by intro j hj; change 1 ≤ imgA.key.length; decide)
    (by intro r; rfl)

/-- Claim C10 (code bug evaluation): on the well-formed token
`hdr.eyJjb2duaXRvOmdyb3VwcyI6NX0=`, whose payload decodes to
`\x7b"cognito:groups":5\x7d`, `extractGroupsFromToken` returns the number
`5` — a truthy non-array claim value passes through
`payload["cognito:groups"] || []` unchanged — contradicting the function's
own declared return type `string[]` and the claim that a list of groups is
always returned. -/
theorem extractGroups_nonlist_on_numeric_claim :
    extractGroupsFromToken jsPrimsGroupsNum
      "hdr.eyJjb2duaXRvOmdyb3VwcyI6NX0=" = Json.num 5 := by
  rfl

/-- Helper: every event preserves "at most one pending expiry timer". -/
theorem stepEvent_timers_le (P : JsPrims) (w : World) (e : AuthEvent)
    (hlen : w.app.sessionTimers.length ≤ 1) :
    (stepEvent P w e).app.sessionTimers.length ≤ 1 := by
  cases e with
  | loginEv o now =>
    cases o with
    | challengeRequired => simpa [stepEvent, login, providerSignIn] using hlen
    | succeeded tok => simp [stepEvent, login, providerSignIn, checkAuthState]
    | incomplete => simpa [stepEvent, login, providerSignIn] using hlen
    | rejected msg => simpa [stepEvent, login, providerSignIn] using hlen
  | logoutEv ok => cases ok <;> simp [stepEvent, logout]
  | completeEv o now =>
    by_cases hcs : w.app.challengeSession = false
    · simpa [stepEvent, completeNewPassword, hcs] using hlen
    · cases o with
      | signedIn tok => simp [stepEvent, completeNewPassword, hcs, checkAuthState]
      | notSignedIn => simpa [stepEvent, completeNewPassword, hcs] using hlen
      | rejected m => simpa [stepEvent, completeNewPassword, hcs] using hlen
  | apiCallEv => simpa [stepEvent] using hlen
  | getTokenEv => simpa [stepEvent] using hlen
  | timerFireEv u =>
    by_cases hm : u ∈ w.app.sessionTimers
    · simp only [stepEvent, hm, if_pos, fireSessionTimer]
      exact le_trans (List.length_filter_le _ _) hlen
    · simpa [stepEvent, hm] using hlen

/-- Claim C5: a login attempt answered with the mandatory new-password
challenge parks the challenge (`needsPasswordChange`, `challengeSession`)
without authenticating: no user is set, the provider still holds no token,
and `getAuthToken` returns `null` rather than a token or an exception —
and a `getAuthToken` call does not change the state, so every call made
until a challenge-completing event still returns `null`. -/
theorem challengeLogin_not_authenticated (P : JsPrims) (now : Nat) (w : World)
    (hu : w.app.user = none) (htok : w.provider.accessToken = none) :
    (login P SignInOutcome.challengeRequired now w).2 = none ∧
    (login P SignInOutcome.challengeRequired now w).1.app.user = none ∧
    (login P SignInOutcome.challengeRequired now w).1.app.needsPasswordChange
        = true ∧
    (login P SignInOutcome.challengeRequired now w).1.app.challengeSession
        = true ∧
    getAuthToken (login P SignInOutcome.challengeRequired now w).1.provider
        = none ∧
    stepEvent P (login P SignInOutcome.challengeRequired now w).1
        AuthEvent.getTokenEv
      = (login P SignInOutcome.challengeRequired now w).1 := by
  simp [login, providerSignIn, getAuthToken, stepEvent, hu, htok]

/-- Witness for `challengeLogin_not_authenticated` at the anonymous
world. -/
theorem challengeLogin_not_authenticated_witness :
    (login jsPrimsNone SignInOutcome.challengeRequired 0 worldAnon).2 = none ∧
    (login jsPrimsNone SignInOutcome.challengeRequired 0
        worldAnon).1.app.user = none ∧
    (login jsPrimsNone SignInOutcome.challengeRequired 0
        worldAnon).1.app.needsPasswordChange = true ∧
    (login jsPrimsNone SignInOutcome.challengeRequired 0
        worldAnon).1.app.challengeSession = true ∧
    getAuthToken (login jsPrimsNone SignInOutcome.challengeRequired 0
        worldAnon).1.provider = none ∧
    stepEvent jsPrimsNone
        (login jsPrimsNone SignInOutcome.challengeRequired 0 worldAnon).1
        AuthEvent.getTokenEv
      = (login jsPrimsNone SignInOutcome.challengeRequired 0 worldAnon).1 :=
  challengeLogin_not_authenticated jsPrimsNone 0 worldAnon rfl rfl

/-- Claim C6: `completeNewPassword` with no stored challenge fails with the
"No active challenge session" error, makes no call to the identity
provider (`confirmSignIn` is never reached), and leaves the whole world —
user, password-change flag, challenge, timers, provider — unchanged. -/
theorem completeNewPassword_no_challenge_noop (P : JsPrims)
    (o : ConfirmOutcome) (now : Nat) (w : World)
    (h : w.app.challengeSession = false) :
    completeNewPassword P o now w
      = (w, false, some "No active challenge session") := by
  simp [completeNewPassword, h]

/-- Witness for `completeNewPassword_no_challenge_noop` at the anonymous
world. -/
theorem completeNewPassword_no_challenge_noop_witness :
    completeNewPassword jsPrimsNone ConfirmOutcome.notSignedIn 0 worldAnon
      = (worldAnon, false, some "No active challenge session") :=
  completeNewPassword_no_challenge_noop jsPrimsNone ConfirmOutcome.notSignedIn
    0 worldAnon rfl

/-- Claim C7: a login attempt rejected by the identity provider rethrows
the provider's message, and — starting from the anonymous state — leaves
the state anonymous: no user, no stored challenge, no password-change
flag, no armed timer, and the provider untouched. -/
theorem rejectedLogin_stays_anonymous (P : JsPrims) (msg : String) (now : Nat)
    (w : World) (hu : w.app.user = none) (hc : w.app.challengeSession = false)
    (hnp : w.app.needsPasswordChange = false)
    (ht : w.app.sessionTimers = []) :
    (login P (SignInOutcome.rejected msg) now w).2 = some msg ∧
    (login P (SignInOutcome.rejected msg) now w).1.app.user = none ∧
    (login P (SignInOutcome.rejected msg) now w).1.app.challengeSession
        = false ∧
    (login P (SignInOutcome.rejected msg) now w).1.app.needsPasswordChange
        = false ∧
    (login P (SignInOutcome.rejected msg) now w).1.app.sessionTimers = [] ∧
    (login P (SignInOutcome.rejected msg) now w).1.provider = w.provider := by
  simp [login, providerSignIn, hu, hc, hnp, ht]

/-- Witness for `rejectedLogin_stays_anonymous` at the anonymous world. -/
theorem rejectedLogin_stays_anonymous_witness :
    (login jsPrimsNone
        (SignInOutcome.rejected "Incorrect username or password.") 0
        worldAnon).2 = some "Incorrect username or password." ∧
    (login jsPrimsNone
        (SignInOutcome.rejected "Incorrect username or password.") 0
        worldAnon).1.app.user = none ∧
    (login jsPrimsNone
        (SignInOutcome.rejected "Incorrect username or password.") 0
        worldAnon).1.app.challengeSession = false ∧
    (login jsPrimsNone
        (SignInOutcome.rejected "Incorrect username or password.") 0
        worldAnon).1.app.needsPasswordChange = false ∧
    (login jsPrimsNone
        (SignInOutcome.rejected "Incorrect username or password.") 0
        worldAnon).1.app.sessionTimers = [] ∧
    (login jsPrimsNone
        (SignInOutcome.rejected "Incorrect username or password.") 0
        worldAnon).1.provider = worldAnon.provider :=
  rejectedLogin_stays_anonymous jsPrimsNone
    "Incorrect username or password." 0 worldAnon rfl rfl rfl rfl

/-- Claim C8, counterexample: in `worldAuthed` (a signed-in user, a stored
challenge, a pending timer) a single `logout` call during which the
provider's sign-out throws leaves the user set and the challenge stored —
the catch branch only clears the timer — so the state is not Anonymous
with Session and Pending Challenge cleared, as the claim requires even
when sign-out throws.  (The timer is indeed cancelled.) -/
theorem logout_signOut_throw_keeps_user :
    (logout false worldAuthed).app.user
        = some { username := "admin", email := "admin@example.com",
                 groups := Json.arr [Json.str "admins"] } ∧
    (logout false worldAuthed).app.challengeSession = true ∧
    (logout false worldAuthed).app.sessionTimers = [] :=
  ⟨rfl, rfl, rfl⟩

/-- Claim C8 as amended: `logout` never throws (it is total into `World`)
and always cancels the expiry timer; when the provider's sign-out
succeeds it clears the Session and the Pending Challenge, and a repeated
call is a no-op (idempotence, no error on the second call); when the
provider's sign-out throws, the error is swallowed but only the timer is
cancelled — the Session and the Pending Challenge remain in place. -/
theorem logout_amended (ok : Bool) (w : World) :
    (logout true w).app.user = none ∧
    (logout true w).app.needsPasswordChange = false ∧
    (logout true w).app.challengeSession = false ∧
    (logout true w).app.sessionTimers = [] ∧
    (logout false w).app = { w.app with sessionTimers := [] } ∧
    (logout false w).provider = w.provider ∧
    logout ok (logout ok w) = logout ok w := by
  cases ok <;> exact ⟨rfl, rfl, rfl, rfl, rfl, rfl, rfl⟩

/-- Claim C9: at most one expiry timer is ever pending (arming on entering
Authenticated replaces any prior timer with exactly one, due one hour —
3600000 ms — after entry; every event preserves the at-most-one bound); a
REST API call does not touch the session state at all, so it cannot renew
the timer; and firing the pending timer with no intervening logout clears
the session without user action: the user becomes `none`, `getAuthToken`
returns `null`, and no timer remains pending. -/
theorem sessionTimer_contract (P : JsPrims) (w : World) (now t : Nat)
    (e : AuthEvent) (hlen : w.app.sessionTimers.length ≤ 1)
    (ht : t ∈ w.app.sessionTimers) :
    (checkAuthState P now w).app.sessionTimers
        = (if w.provider.signedIn then [now + 3600000] else []) ∧
    (stepEvent P w e).app.sessionTimers.length ≤ 1 ∧
    stepEvent P w AuthEvent.apiCallEv = w ∧
    (stepEvent P w (AuthEvent.timerFireEv t)).app.user = none ∧
    getAuthToken (stepEvent P w (AuthEvent.timerFireEv t)).provider = none ∧
    (stepEvent P w (AuthEvent.timerFireEv t)).app.sessionTimers = [] := by
  have hsingle : w.app.sessionTimers = [t] := by
    rcases hl : w.app.sessionTimers with _ | ⟨a, l⟩
    · rw [hl] at ht
      cases ht
    · rw [hl] at ht hlen
      have hl0 : l = [] := by
        cases l with
        | nil => rfl
        | cons b l' => simp at hlen
      subst hl0
      have := List.mem_singleton.mp ht
      rw [this]
  refine ⟨?_, stepEvent_timers_le P w e hlen, rfl, ?_, ?_, ?_⟩
  · cases hw : w.provider.signedIn <;> simp [checkAuthState, hw]
  · simp [stepEvent, ht, fireSessionTimer]
  · simp [stepEvent, ht, fireSessionTimer, getAuthToken]
  · simp [stepEvent, ht, fireSessionTimer, hsingle]

/-- Witness for `sessionTimer_contract` at the authenticated world with its
pending timer 5. -/
theorem sessionTimer_contract_witness :
    (checkAuthState jsPrimsNone 0 worldAuthed).app.sessionTimers
        = (if worldAuthed.provider.signedIn then [0 + 3600000] else []) ∧
    (stepEvent jsPrimsNone worldAuthed
        AuthEvent.apiCallEv).app.sessionTimers.length ≤ 1 ∧
    stepEvent jsPrimsNone worldAuthed AuthEvent.apiCallEv = worldAuthed ∧
    (stepEvent jsPrimsNone worldAuthed
        (AuthEvent.timerFireEv 5)).app.user = none ∧
    getAuthToken (stepEvent jsPrimsNone worldAuthed
        (AuthEvent.timerFireEv 5)).provider = none ∧
    (stepEvent jsPrimsNone worldAuthed
        (AuthEvent.timerFireEv 5)).app.sessionTimers = [] :=
  sessionTimer_contract jsPrimsNone worldAuthed 0 5 AuthEvent.apiCallEv
    (by decide) (by decide)

end OrsaAdmin
